import Mathlib

/-!
# QtCodeView: deferred scroll intent and snippet forwarding

A shallow embedding of `src/lib_gui/qt/view/QtCodeView.cpp`.

* The widget `m_widget` (a `QtCodeNavigator`, external) is represented by the
  ordered history of calls it has received; its answers to queries are taken
  as parameters (`External`), as functions of that history.
* Every lambda handed to `m_onQtThread` is one constructor of `UnitOfWork`
  holding the values the lambda captures; `QtCodeView.run` is the lambda body.
* A public method is the part that runs on the caller's thread: it may store
  into `m_scrollParams` and may append units of work to the FIFO queue.
* `TRACE(...)` is a profiling macro without effect on the view and is left out.
-/

namespace Sourcetrail

/-! Values the view only passes on are represented by strings and numbers. -/

abbrev FilePath := String
abbrev Id := Nat
abbrev TimeStamp := Nat
abbrev ErrorInfo := Nat
abbrev SourceLocationCollection := Nat
abbrev ScreenSearchSender := Nat

/-- Modelled from the spec: the enumeration `ScrollParams::ScrollType` is declared in a
header that is not part of the sources; the spec lists the variants `ToDefinition`,
`ToLine`, `ToValue` and `None`, the source names the first three
`SCROLL_TO_DEFINITION`, `SCROLL_TO_LINE`, `SCROLL_TO_VALUE`. -/
inductive ScrollType where
  | SCROLL_NONE
  | SCROLL_TO_DEFINITION
  | SCROLL_TO_LINE
  | SCROLL_TO_VALUE
deriving DecidableEq, Repr

/-- Modelled from the spec: the struct `ScrollParams` is declared in a header that is not
part of the sources. The fields are the ones `performScroll` reads. -/
structure ScrollParams where
  type : ScrollType
  filePath : FilePath
  line : Nat
  value : Nat
  inListMode : Bool
  animated : Bool
  ignoreActiveReference : Bool
deriving DecidableEq, Repr

/-- Modelled from the spec: the default constructor `ScrollParams()` is declared in a
header that is not part of the sources; the spec calls its value the idle intent `None`. -/
def ScrollParams.default : ScrollParams :=
  { type := ScrollType.SCROLL_NONE, filePath := "", line := 0, value := 0,
    inListMode := false, animated := false, ignoreActiveReference := false }

/-- Modelled from the spec: the struct `CodeSnippetParams` is declared in a header that is
not part of the sources; the spec describes it by "source file, collapsed-or-not, reference
count, modification time", which are the fields `showCodeSnippets` reads. -/
structure CodeSnippetParams where
  locationFile : FilePath
  isCollapsed : Bool
  refCount : Int
  modificationTime : TimeStamp
deriving DecidableEq, Repr

/-- Modelled from the spec: the struct `CodeParams` is declared in a header that is not
part of the sources; the spec describes it by "which tokens are active, which locations are
errors, whether prior snippets should be cleared first, whether contents should be shown
immediately after loading", which are the fields `showCodeSnippets` reads. -/
structure CodeParams where
  clearSnippets : Bool
  activeTokenIds : List Id
  errorInfos : List ErrorInfo
  showContents : Bool
deriving DecidableEq, Repr

/-- Modelled from the spec: the enumeration `FileState` is declared in a header that is not
part of the sources; the spec lists `Minimized`, `Snippets`, `Maximized`, the source names
them as below. -/
inductive FileState where
  | FILE_MINIMIZED
  | FILE_SNIPPETS
  | FILE_MAXIMIZED
deriving DecidableEq, Repr

/-- Modelled from the spec: the enumeration `QtCodeNavigator::Mode` is declared in a header
that is not part of the sources; the spec speaks of the single-file and the list rendering
mode, the source names them as below. -/
inductive Mode where
  | MODE_SINGLE
  | MODE_LIST
deriving DecidableEq, Repr

/-- Every call the view makes on a collaborator. All but the last five are methods of
`m_widget`. -/
inductive Call where
  | refreshStyle
  | findScreenMatches (query : String)
  | activateScreenMatch (matchIndex : Nat)
  | deactivateScreenMatch (matchIndex : Nat)
  | clearScreenMatches
  | clear
  | clearCodeSnippets
  | setActiveTokenIds (activeTokenIds : List Id)
  | setErrorInfos (errorInfos : List ErrorInfo)
  | clearFile
  | addFile (locationFile : FilePath) (refCount : Int) (modificationTime : TimeStamp)
  | addCodeSnippet (snippet : CodeSnippetParams)
  | addedFiles
  | updateFiles
  | showContents
  | setFileMinimized (filePath : FilePath)
  | setFileSnippets (filePath : FilePath)
  | setFileMaximized (filePath : FilePath)
  | showActiveSnippet (activeTokenIds : List Id) (collection : SourceLocationCollection)
      (scrollTo : Bool)
  | setActiveLocalSymbolIds (activeLocalSymbolIds : List Id)
  | focusTokenIds (focusedTokenIds : List Id)
  | defocusTokenIds
  | setMode (mode : Mode)
  | scrollToDefinition (animated : Bool) (ignoreActiveReference : Bool)
  | scrollToLine (filePath : FilePath) (line : Nat)
  | scrollToValue (value : Nat) (inListMode : Bool)
  | scrollToSnippetIfRequested
  | setStyleSheet (styleSheet : String)
  | setWidgetBackgroundColor (color : String)
  | clearAnnotationColors
  | clearHighlightingRules
  | foundMatches (sender : ScreenSearchSender) (matchCount : Nat)
  | setWidgetWrapper
deriving DecidableEq, Repr

/-- The three scroll calls that `performScroll` selects by the type of the intent. -/
def Call.isVariantScroll : Call → Bool
  | .scrollToDefinition _ _ => true
  | .scrollToLine _ _ => true
  | .scrollToValue _ _ => true
  | _ => false

/-- The scroll calls: the three variant-specific ones and `scrollToSnippetIfRequested`. -/
def Call.isScroll : Call → Bool
  | .scrollToDefinition _ _ => true
  | .scrollToLine _ _ => true
  | .scrollToValue _ _ => true
  | .scrollToSnippetIfRequested => true
  | _ => false

/-- The content-update calls of the operations that show contents. -/
def Call.isContentUpdate : Call → Bool
  | .clearCodeSnippets => true
  | .setActiveTokenIds _ => true
  | .setErrorInfos _ => true
  | .clearFile => true
  | .addFile _ _ _ => true
  | .addCodeSnippet _ => true
  | .addedFiles => true
  | .updateFiles => true
  | .showContents => true
  | _ => false

/-- The two calls that add one snippet to the widget. -/
def Call.isAdd : Call → Bool
  | .addFile _ _ _ => true
  | .addCodeSnippet _ => true
  | _ => false

/-- What the collaborators answer. The widget answers from its state, which is the
history of the calls it received; the colour scheme and the resource files answer from
the name asked for. -/
structure External where
  isVisible : List Call → Bool
  hasErrors : List Call → Bool
  isInListMode : List Call → Bool
  hasSingleFileCached : FilePath → List Call → Bool
  findScreenMatches : String → List Call → Nat
  getColor : String → String
  getGuiPath : FilePath
  getStyleSheet : FilePath → String

/-- One constructor per lambda passed to `m_onQtThread`, with the captured values. -/
inductive UnitOfWork where
  | refreshView
  | findMatches (sender : ScreenSearchSender) (query : String)
  | activateMatch (matchIndex : Nat)
  | deactivateMatch (matchIndex : Nat)
  | clearMatches
  | clear
  | showCodeSnippets (snippets : List CodeSnippetParams) (params : CodeParams)
  | setFileState (filePath : FilePath) (state : FileState)
  | showActiveSnippet (activeTokenIds : List Id) (collection : SourceLocationCollection)
      (scrollTo : Bool)
  | showActiveTokenIds (activeTokenIds : List Id)
  | showActiveLocalSymbolIds (activeLocalSymbolIds : List Id)
  | focusTokenIds (focusedTokenIds : List Id)
  | defocusTokenIds
  | showContents
  | setMode (listMode : Bool)
deriving DecidableEq, Repr

/-- The view: the pending scroll intent, the history of calls made so far (`m_widget` and
the other collaborators), and the units of work handed to `m_onQtThread` that the UI
thread has not run yet, oldest first. -/
structure QtCodeView where
  m_scrollParams : ScrollParams
  calls : List Call
  m_onQtThread : List UnitOfWork
deriving DecidableEq, Repr

namespace QtCodeView

/-- Make one call on a collaborator. -/
def emit (c : Call) (v : QtCodeView) : QtCodeView :=
  { v with calls := v.calls ++ [c] }

/-- Modelled from the spec: the functor `m_onQtThread` is a member whose class is not part
of the sources; the spec describes it as "run this unit of work on the UI-affine thread;
ordering of submitted units is FIFO". Submitting appends to the queue. -/
def onQtThread (u : UnitOfWork) (v : QtCodeView) : QtCodeView :=
  { v with m_onQtThread := v.m_onQtThread ++ [u] }

/-- `QtCodeView::setStyleSheet`. -/
def setStyleSheet (e : External) (v : QtCodeView) : QtCodeView :=
  let v1 := v.emit (Call.setWidgetBackgroundColor (e.getColor "code/background"))
  let styleSheet := e.getStyleSheet (e.getGuiPath ++ "code_view/code_view.css")
  v1.emit (Call.setStyleSheet styleSheet)

/-- `QtCodeView::performScroll`. -/
def performScroll (v : QtCodeView) : QtCodeView :=
  let v1 :=
    match v.m_scrollParams.type with
    | ScrollType.SCROLL_TO_DEFINITION =>
        v.emit (Call.scrollToDefinition v.m_scrollParams.animated
          v.m_scrollParams.ignoreActiveReference)
    | ScrollType.SCROLL_TO_LINE =>
        v.emit (Call.scrollToLine v.m_scrollParams.filePath v.m_scrollParams.line)
    | ScrollType.SCROLL_TO_VALUE =>
        v.emit (Call.scrollToValue v.m_scrollParams.value v.m_scrollParams.inListMode)
    | _ => v
  let v2 := v1.emit Call.scrollToSnippetIfRequested
  { v2 with m_scrollParams := ScrollParams.default }

/-- One iteration of the loop over the snippets in `showCodeSnippets`; the Boolean is the
local variable `addedFiles`. -/
def addSnippet (acc : QtCodeView × Bool) (snippet : CodeSnippetParams) : QtCodeView × Bool :=
  if snippet.isCollapsed then
    (acc.1.emit (Call.addFile snippet.locationFile snippet.refCount snippet.modificationTime),
      true)
  else
    (acc.1.emit (Call.addCodeSnippet snippet), acc.2)

/-- The body of the lambda in `QtCodeView::showCodeSnippets`. -/
def showCodeSnippetsBody (snippets : List CodeSnippetParams) (params : CodeParams)
    (v : QtCodeView) : QtCodeView :=
  let v1 :=
    if params.clearSnippets then
      let a := ((v.emit Call.clearCodeSnippets).emit
        (Call.setActiveTokenIds params.activeTokenIds)).emit
          (Call.setErrorInfos params.errorInfos)
      if snippets.length = 0 then a.emit Call.clearFile else a
    else v
  let r := snippets.foldl addSnippet (v1, false)
  let v3 := if r.2 then r.1.emit Call.addedFiles else r.1
  if params.showContents then
    ((v3.emit Call.updateFiles).emit Call.showContents).performScroll
  else v3

/-- The body of each lambda, run on the UI thread. -/
def run (e : External) (u : UnitOfWork) (v : QtCodeView) : QtCodeView :=
  match u with
  | UnitOfWork.refreshView =>
      (((v.setStyleSheet e).emit Call.refreshStyle).emit Call.clearAnnotationColors).emit
        Call.clearHighlightingRules
  | UnitOfWork.findMatches sender query =>
      let matchCount := e.findScreenMatches query v.calls
      (v.emit (Call.findScreenMatches query)).emit (Call.foundMatches sender matchCount)
  | UnitOfWork.activateMatch matchIndex => v.emit (Call.activateScreenMatch matchIndex)
  | UnitOfWork.deactivateMatch matchIndex => v.emit (Call.deactivateScreenMatch matchIndex)
  | UnitOfWork.clearMatches => v.emit Call.clearScreenMatches
  | UnitOfWork.clear => v.emit Call.clear
  | UnitOfWork.showCodeSnippets snippets params => v.showCodeSnippetsBody snippets params
  | UnitOfWork.setFileState filePath state =>
      match state with
      | FileState.FILE_MINIMIZED => v.emit (Call.setFileMinimized filePath)
      | FileState.FILE_SNIPPETS => v.emit (Call.setFileSnippets filePath)
      | FileState.FILE_MAXIMIZED => v.emit (Call.setFileMaximized filePath)
  | UnitOfWork.showActiveSnippet activeTokenIds collection scrollTo =>
      v.emit (Call.showActiveSnippet activeTokenIds collection scrollTo)
  | UnitOfWork.showActiveTokenIds activeTokenIds =>
      ((v.emit (Call.setActiveTokenIds activeTokenIds)).emit Call.updateFiles).performScroll
  | UnitOfWork.showActiveLocalSymbolIds activeLocalSymbolIds =>
      (v.emit (Call.setActiveLocalSymbolIds activeLocalSymbolIds)).emit Call.updateFiles
  | UnitOfWork.focusTokenIds focusedTokenIds => v.emit (Call.focusTokenIds focusedTokenIds)
  | UnitOfWork.defocusTokenIds => v.emit Call.defocusTokenIds
  | UnitOfWork.showContents =>
      ((v.emit Call.updateFiles).emit Call.showContents).performScroll
  | UnitOfWork.setMode listMode =>
      v.emit (Call.setMode (if listMode then Mode.MODE_LIST else Mode.MODE_SINGLE))

/-- Modelled from the spec: the UI thread, which is not part of the sources, runs the
units of work in submission order. Here it runs the oldest pending one, if there is one. -/
def runNext (e : External) (v : QtCodeView) : QtCodeView :=
  match v.m_onQtThread with
  | [] => v
  | u :: rest => run e u { v with m_onQtThread := rest }

/-- Modelled from the spec: the UI thread, which is not part of the sources, runs the
units of work in submission order. Here it runs every pending one, oldest first; no lambda
body submits a unit of work, so one pass over the queue empties it. -/
def drain (e : External) (v : QtCodeView) : QtCodeView :=
  v.m_onQtThread.foldl (fun s u => run e u s) { v with m_onQtThread := [] }

/-! ### The public methods, as run on the caller's thread -/

/-- `QtCodeView::QtCodeView`: a fresh widget, then `setStyleSheet()`. -/
def construct (e : External) : QtCodeView :=
  setStyleSheet e { m_scrollParams := ScrollParams.default, calls := [], m_onQtThread := [] }

def createWidgetWrapper (v : QtCodeView) : QtCodeView := v.emit Call.setWidgetWrapper

def initView (v : QtCodeView) : QtCodeView := v

def refreshView (v : QtCodeView) : QtCodeView := v.onQtThread UnitOfWork.refreshView

def isVisible (e : External) (v : QtCodeView) : Bool := e.isVisible v.calls

def findMatches (sender : ScreenSearchSender) (query : String) (v : QtCodeView) : QtCodeView :=
  v.onQtThread (UnitOfWork.findMatches sender query)

def activateMatch (matchIndex : Nat) (v : QtCodeView) : QtCodeView :=
  v.onQtThread (UnitOfWork.activateMatch matchIndex)

def deactivateMatch (matchIndex : Nat) (v : QtCodeView) : QtCodeView :=
  v.onQtThread (UnitOfWork.deactivateMatch matchIndex)

def clearMatches (v : QtCodeView) : QtCodeView := v.onQtThread UnitOfWork.clearMatches

/-- `QtCodeView::clear`: the widget call is submitted, the intent is reset at once. -/
def clear (v : QtCodeView) : QtCodeView :=
  let v1 := v.onQtThread UnitOfWork.clear
  { v1 with m_scrollParams := ScrollParams.default }

def showsErrors (e : External) (v : QtCodeView) : Bool := e.hasErrors v.calls

def showCodeSnippets (snippets : List CodeSnippetParams) (params : CodeParams)
    (v : QtCodeView) : QtCodeView :=
  v.onQtThread (UnitOfWork.showCodeSnippets snippets params)

/-- `QtCodeView::scrollTo`. -/
def scrollTo (params : ScrollParams) (v : QtCodeView) : QtCodeView :=
  { v with m_scrollParams := params }

def setFileState (filePath : FilePath) (state : FileState) (v : QtCodeView) : QtCodeView :=
  v.onQtThread (UnitOfWork.setFileState filePath state)

def showActiveSnippet (activeTokenIds : List Id) (collection : SourceLocationCollection)
    (scrollTo : Bool) (v : QtCodeView) : QtCodeView :=
  v.onQtThread (UnitOfWork.showActiveSnippet activeTokenIds collection scrollTo)

def showActiveTokenIds (activeTokenIds : List Id) (v : QtCodeView) : QtCodeView :=
  v.onQtThread (UnitOfWork.showActiveTokenIds activeTokenIds)

def showActiveLocalSymbolIds (activeLocalSymbolIds : List Id) (v : QtCodeView) : QtCodeView :=
  v.onQtThread (UnitOfWork.showActiveLocalSymbolIds activeLocalSymbolIds)

def focusTokenIds (focusedTokenIds : List Id) (v : QtCodeView) : QtCodeView :=
  v.onQtThread (UnitOfWork.focusTokenIds focusedTokenIds)

def defocusTokenIds (v : QtCodeView) : QtCodeView := v.onQtThread UnitOfWork.defocusTokenIds

def showContents (v : QtCodeView) : QtCodeView := v.onQtThread UnitOfWork.showContents

def isInListMode (e : External) (v : QtCodeView) : Bool := e.isInListMode v.calls

/-- `QtCodeView::setMode`. -/
def setMode (e : External) (listMode : Bool) (v : QtCodeView) : QtCodeView :=
  if v.isInListMode e = listMode then v
  else v.onQtThread (UnitOfWork.setMode listMode)

def hasSingleFileCached (e : External) (filePath : FilePath) (v : QtCodeView) : Bool :=
  e.hasSingleFileCached filePath v.calls

end QtCodeView

/-- The public methods that return nothing, with their arguments. -/
inductive Op where
  | createWidgetWrapper
  | initView
  | refreshView
  | findMatches (sender : ScreenSearchSender) (query : String)
  | activateMatch (matchIndex : Nat)
  | deactivateMatch (matchIndex : Nat)
  | clearMatches
  | clear
  | showCodeSnippets (snippets : List CodeSnippetParams) (params : CodeParams)
  | scrollTo (params : ScrollParams)
  | setFileState (filePath : FilePath) (state : FileState)
  | showActiveSnippet (activeTokenIds : List Id) (collection : SourceLocationCollection)
      (scrollTo : Bool)
  | showActiveTokenIds (activeTokenIds : List Id)
  | showActiveLocalSymbolIds (activeLocalSymbolIds : List Id)
  | focusTokenIds (focusedTokenIds : List Id)
  | defocusTokenIds
  | showContents
  | setMode (listMode : Bool)
deriving DecidableEq, Repr

/-- The public methods that answer a question. -/
inductive Query where
  | isVisible
  | showsErrors
  | isInListMode
  | hasSingleFileCached (filePath : FilePath)
deriving DecidableEq, Repr

/-- The part of a public method that runs on the caller's thread. -/
def QtCodeView.call (e : External) (op : Op) (v : QtCodeView) : QtCodeView :=
  match op with
  | Op.createWidgetWrapper => v.createWidgetWrapper
  | Op.initView => v.initView
  | Op.refreshView => v.refreshView
  | Op.findMatches sender query => v.findMatches sender query
  | Op.activateMatch matchIndex => v.activateMatch matchIndex
  | Op.deactivateMatch matchIndex => v.deactivateMatch matchIndex
  | Op.clearMatches => v.clearMatches
  | Op.clear => v.clear
  | Op.showCodeSnippets snippets params => v.showCodeSnippets snippets params
  | Op.scrollTo params => v.scrollTo params
  | Op.setFileState filePath state => v.setFileState filePath state
  | Op.showActiveSnippet activeTokenIds collection scrollTo =>
      v.showActiveSnippet activeTokenIds collection scrollTo
  | Op.showActiveTokenIds activeTokenIds => v.showActiveTokenIds activeTokenIds
  | Op.showActiveLocalSymbolIds activeLocalSymbolIds =>
      v.showActiveLocalSymbolIds activeLocalSymbolIds
  | Op.focusTokenIds focusedTokenIds => v.focusTokenIds focusedTokenIds
  | Op.defocusTokenIds => v.defocusTokenIds
  | Op.showContents => v.showContents
  | Op.setMode listMode => v.setMode e listMode

/-- The answer of a public query method. -/
def QtCodeView.ask (e : External) (q : Query) (v : QtCodeView) : Bool :=
  match q with
  | Query.isVisible => v.isVisible e
  | Query.showsErrors => v.showsErrors e
  | Query.isInListMode => v.isInListMode e
  | Query.hasSingleFileCached filePath => v.hasSingleFileCached e filePath

/-- The operations that consume the scroll intent: `showCodeSnippets` with
`params.showContents`, `showActiveTokenIds` and `showContents`. -/
def Op.consumesIntent : Op → Bool
  | Op.showCodeSnippets _ params => params.showContents
  | Op.showActiveTokenIds _ => true
  | Op.showContents => true
  | _ => false

/-- The operations that do not show contents: `showCodeSnippets` without
`params.showContents`, `showActiveLocalSymbolIds`, `showActiveSnippet`, `focusTokenIds`,
`defocusTokenIds`, `setFileState`, `setMode`, `refreshView` and the match operations. -/
def Op.keepsIntent : Op → Bool
  | Op.showCodeSnippets _ params => !params.showContents
  | Op.showActiveLocalSymbolIds _ => true
  | Op.showActiveSnippet _ _ _ => true
  | Op.focusTokenIds _ => true
  | Op.defocusTokenIds => true
  | Op.setFileState _ _ => true
  | Op.setMode _ => true
  | Op.refreshView => true
  | Op.findMatches _ _ => true
  | Op.activateMatch _ => true
  | Op.deactivateMatch _ => true
  | Op.clearMatches => true
  | _ => false

/-- What happens to a view: a caller invokes a public method, or the UI thread runs the
oldest pending unit of work. -/
inductive Event where
  | call (op : Op)
  | tick
deriving DecidableEq, Repr

/-- The event is a call of `scrollTo`. -/
def Event.isScrollTo : Event → Bool
  | Event.call (Op.scrollTo _) => true
  | _ => false

def Event.keepsIntent : Event → Bool
  | Event.call op => op.keepsIntent
  | Event.tick => true

def QtCodeView.step (e : External) (v : QtCodeView) (ev : Event) : QtCodeView :=
  match ev with
  | Event.call op => v.call e op
  | Event.tick => v.runNext e

/-- The variant-specific call that `performScroll` makes for an intent: at most one. -/
def dispatch (p : ScrollParams) : List Call :=
  match p.type with
  | ScrollType.SCROLL_TO_DEFINITION => [Call.scrollToDefinition p.animated p.ignoreActiveReference]
  | ScrollType.SCROLL_TO_LINE => [Call.scrollToLine p.filePath p.line]
  | ScrollType.SCROLL_TO_VALUE => [Call.scrollToValue p.value p.inListMode]
  | ScrollType.SCROLL_NONE => []

/-- A view with nothing pending and no call made yet. -/
def QtCodeView.fresh : QtCodeView :=
  { m_scrollParams := ScrollParams.default, calls := [], m_onQtThread := [] }

/-- An `External` for evaluating the model on concrete inputs: the widget is in list mode
exactly when the last `setMode` it received was `MODE_LIST`. -/
def External.sample : External :=
  { isVisible := fun _ => true
    hasErrors := fun _ => false
    isInListMode := fun h =>
      (h.filter (fun c => match c with | Call.setMode _ => true | _ => false)).getLast? ==
        some (Call.setMode Mode.MODE_LIST)
    hasSingleFileCached := fun _ _ => false
    findScreenMatches := fun _ _ => 0
    getColor := fun _ => "#FFFFFF"
    getGuiPath := "gui/"
    getStyleSheet := fun _ => "" }

/-- Sample intent: scroll to line 42 of `a.cpp`. -/
def ScrollParams.sampleToLine : ScrollParams :=
  { ScrollParams.default with type := ScrollType.SCROLL_TO_LINE, filePath := "a.cpp", line := 42 }

/-- Sample intent: scroll to value 7 in list mode. -/
def ScrollParams.sampleToValue : ScrollParams :=
  { ScrollParams.default with type := ScrollType.SCROLL_TO_VALUE, value := 7, inListMode := true }

/-- Sample snippets: a collapsed one for `a.cpp`, then an expanded one for `b.cpp`. -/
def CodeSnippetParams.samples : List CodeSnippetParams :=
  [{ locationFile := "a.cpp", isCollapsed := true, refCount := 2, modificationTime := 5 },
   { locationFile := "b.cpp", isCollapsed := false, refCount := 1, modificationTime := 6 }]

/-- Sample batch parameters with `clearSnippets` set. -/
def CodeParams.sample (showContents : Bool) : CodeParams :=
  { clearSnippets := true, activeTokenIds := [1], errorInfos := [], showContents := showContents }

/-- The call the loop of `showCodeSnippets` makes for one snippet. -/
def addCall (snippet : CodeSnippetParams) : Call :=
  if snippet.isCollapsed then
    Call.addFile snippet.locationFile snippet.refCount snippet.modificationTime
  else Call.addCodeSnippet snippet

/-- The calls of `showCodeSnippets` before its loop. -/
def clearCalls (snippets : List CodeSnippetParams) (params : CodeParams) : List Call :=
  if params.clearSnippets then
    [Call.clearCodeSnippets, Call.setActiveTokenIds params.activeTokenIds,
      Call.setErrorInfos params.errorInfos] ++
      (if snippets.length = 0 then [Call.clearFile] else [])
  else []

/-- The units of work whose body ends in `performScroll`. -/
def UnitOfWork.performsScroll : UnitOfWork → Bool
  | UnitOfWork.showCodeSnippets _ params => params.showContents
  | UnitOfWork.showActiveTokenIds _ => true
  | UnitOfWork.showContents => true
  | _ => false

/-- The events of the C10 example. -/
def Event.samples : List Event :=
  [Event.call (Op.setMode true), Event.call (Op.focusTokenIds [3]), Event.tick,
    Event.call (Op.showCodeSnippets CodeSnippetParams.samples (CodeParams.sample false))]

/-! ## Basic facts about the building blocks -/

namespace QtCodeView

@[simp]
theorem emit_calls (c : Call) (v : QtCodeView) : (v.emit c).calls = v.calls ++ [c] := rfl

@[simp]
theorem emit_scrollParams (c : Call) (v : QtCodeView) :
    (v.emit c).m_scrollParams = v.m_scrollParams := rfl

@[simp]
theorem emit_queue (c : Call) (v : QtCodeView) :
    (v.emit c).m_onQtThread = v.m_onQtThread := rfl

@[simp]
theorem onQtThread_calls (u : UnitOfWork) (v : QtCodeView) :
    (v.onQtThread u).calls = v.calls := rfl

@[simp]
theorem onQtThread_scrollParams (u : UnitOfWork) (v : QtCodeView) :
    (v.onQtThread u).m_scrollParams = v.m_scrollParams := rfl

@[simp]
theorem onQtThread_queue (u : UnitOfWork) (v : QtCodeView) :
    (v.onQtThread u).m_onQtThread = v.m_onQtThread ++ [u] := rfl

theorem performScroll_calls (v : QtCodeView) :
    v.performScroll.calls = v.calls ++ (dispatch v.m_scrollParams ++ [Call.scrollToSnippetIfRequested]) := by
  unfold performScroll dispatch
  cases h : v.m_scrollParams.type <;> simp [emit]

@[simp]
theorem performScroll_scrollParams (v : QtCodeView) :
    v.performScroll.m_scrollParams = ScrollParams.default := rfl

@[simp]
theorem performScroll_queue (v : QtCodeView) :
    v.performScroll.m_onQtThread = v.m_onQtThread := by
  unfold performScroll
  cases h : v.m_scrollParams.type <;> simp [emit]

end QtCodeView

theorem dispatch_default : dispatch ScrollParams.default = [] := rfl

theorem dispatch_filter_variant (p : ScrollParams) :
    (dispatch p).filter Call.isVariantScroll = dispatch p := by
  unfold dispatch
  cases p.type <;> simp [Call.isVariantScroll]

theorem dispatch_all_variant (p : ScrollParams) :
    ∀ c ∈ dispatch p, c.isVariantScroll = true := by
  unfold dispatch
  cases p.type <;> simp [Call.isVariantScroll]

theorem dispatch_length_le (p : ScrollParams) : (dispatch p).length ≤ 1 := by
  unfold dispatch
  cases p.type <;> simp

/-- A non-empty run of `scrollTo` calls makes no call, submits nothing, and leaves the
last intent. -/
theorem foldl_scrollTo (ps : List ScrollParams) (pn : ScrollParams) (v : QtCodeView) :
    ((ps ++ [pn]).foldl (fun s p => s.scrollTo p) v).calls = v.calls ∧
    ((ps ++ [pn]).foldl (fun s p => s.scrollTo p) v).m_onQtThread = v.m_onQtThread ∧
    ((ps ++ [pn]).foldl (fun s p => s.scrollTo p) v).m_scrollParams = pn := by
  induction ps generalizing v with
  | nil => simp [QtCodeView.scrollTo]
  | cons p ps ih =>
    simp only [List.cons_append, List.foldl_cons]
    exact ih (v.scrollTo p)

theorem foldl_addSnippet (snippets : List CodeSnippetParams) (v : QtCodeView) (b : Bool) :
    (snippets.foldl QtCodeView.addSnippet (v, b)).1.calls = v.calls ++ snippets.map addCall ∧
    (snippets.foldl QtCodeView.addSnippet (v, b)).1.m_scrollParams = v.m_scrollParams ∧
    (snippets.foldl QtCodeView.addSnippet (v, b)).1.m_onQtThread = v.m_onQtThread ∧
    (snippets.foldl QtCodeView.addSnippet (v, b)).2 =
      (b || snippets.any (fun s => s.isCollapsed)) := by
  induction snippets generalizing v b with
  | nil => simp
  | cons s rest ih =>
    simp only [List.foldl_cons, List.map_cons, List.any_cons]
    by_cases hs : s.isCollapsed = true
    · have h := ih (v.emit (Call.addFile s.locationFile s.refCount s.modificationTime)) true
      simp only [QtCodeView.addSnippet, hs, if_true]
      simp only [QtCodeView.emit_calls, QtCodeView.emit_scrollParams, QtCodeView.emit_queue,
        List.append_assoc, List.singleton_append] at h
      simp [h, addCall, hs]
    · have h := ih (v.emit (Call.addCodeSnippet s)) b
      simp only [QtCodeView.addSnippet, hs]
      simp only [QtCodeView.emit_calls, QtCodeView.emit_scrollParams, QtCodeView.emit_queue,
        List.append_assoc, List.singleton_append] at h
      simp [h, addCall, hs]

/-- The calls of the body of `showCodeSnippets`, in order. -/
theorem showCodeSnippetsBody_calls (snippets : List CodeSnippetParams) (params : CodeParams)
    (v : QtCodeView) :
    (v.showCodeSnippetsBody snippets params).calls =
      v.calls ++ (clearCalls snippets params ++ (snippets.map addCall ++
        ((if snippets.any (fun s => s.isCollapsed) then [Call.addedFiles] else []) ++
          (if params.showContents then
            [Call.updateFiles, Call.showContents] ++
              (dispatch v.m_scrollParams ++ [Call.scrollToSnippetIfRequested])
          else [])))) := by
  unfold QtCodeView.showCodeSnippetsBody clearCalls
  by_cases hc : params.clearSnippets = true <;> by_cases he : snippets.length = 0 <;>
    by_cases ha : (snippets.any (fun s => s.isCollapsed)) = true <;>
    by_cases hs : params.showContents = true <;>
    simp [hc, he, ha, hs, foldl_addSnippet, QtCodeView.performScroll_calls]

theorem showCodeSnippetsBody_scrollParams (snippets : List CodeSnippetParams)
    (params : CodeParams) (v : QtCodeView) :
    (v.showCodeSnippetsBody snippets params).m_scrollParams =
      if params.showContents then ScrollParams.default else v.m_scrollParams := by
  unfold QtCodeView.showCodeSnippetsBody
  by_cases hc : params.clearSnippets = true <;> by_cases he : snippets.length = 0 <;>
    by_cases ha : (snippets.any (fun s => s.isCollapsed)) = true <;>
    by_cases hs : params.showContents = true <;>
    simp [hc, he, ha, hs, foldl_addSnippet]

theorem showCodeSnippetsBody_queue (snippets : List CodeSnippetParams)
    (params : CodeParams) (v : QtCodeView) :
    (v.showCodeSnippetsBody snippets params).m_onQtThread = v.m_onQtThread := by
  unfold QtCodeView.showCodeSnippetsBody
  by_cases hc : params.clearSnippets = true <;> by_cases he : snippets.length = 0 <;>
    by_cases ha : (snippets.any (fun s => s.isCollapsed)) = true <;>
    by_cases hs : params.showContents = true <;>
    simp [hc, he, ha, hs, foldl_addSnippet]

/-- No lambda body submits a unit of work. -/
theorem run_queue (e : External) (u : UnitOfWork) (v : QtCodeView) :
    (QtCodeView.run e u v).m_onQtThread = v.m_onQtThread := by
  cases u with
  | showCodeSnippets snippets params => exact showCodeSnippetsBody_queue snippets params v
  | setFileState filePath state => cases state <;> rfl
  | _ => simp [QtCodeView.run, QtCodeView.setStyleSheet]

/-- A lambda body resets the intent when it ends in `performScroll` and leaves it alone
otherwise. -/
theorem run_scrollParams (e : External) (u : UnitOfWork) (v : QtCodeView) :
    (QtCodeView.run e u v).m_scrollParams =
      if u.performsScroll then ScrollParams.default else v.m_scrollParams := by
  cases u with
  | showCodeSnippets snippets params =>
    exact showCodeSnippetsBody_scrollParams snippets params v
  | setFileState filePath state => cases state <;> rfl
  | _ => simp [QtCodeView.run, QtCodeView.setStyleSheet, UnitOfWork.performsScroll]

theorem run_scrollParams_default (e : External) (u : UnitOfWork) (v : QtCodeView)
    (h : v.m_scrollParams = ScrollParams.default) :
    (QtCodeView.run e u v).m_scrollParams = ScrollParams.default := by
  rw [run_scrollParams]
  split <;> simp [h]

/-- The calls of a lambda body: calls that are no scroll calls, then, when the body ends in
`performScroll`, the calls of `performScroll`; `updateFiles` is among the former then. -/
theorem run_calls (e : External) (u : UnitOfWork) (s : QtCodeView) :
    ∃ pre, (QtCodeView.run e u s).calls = s.calls ++ (pre ++
        (if u.performsScroll then
          dispatch s.m_scrollParams ++ [Call.scrollToSnippetIfRequested] else [])) ∧
      (∀ c ∈ pre, c.isScroll = false) ∧
      (u.performsScroll = true → Call.updateFiles ∈ pre) := by
  cases u with
  | showCodeSnippets snippets params =>
    refine ⟨clearCalls snippets params ++ (snippets.map addCall ++
        ((if snippets.any (fun s => s.isCollapsed) then [Call.addedFiles] else []) ++
          (if params.showContents then [Call.updateFiles, Call.showContents] else []))),
      ?_, ?_, ?_⟩
    · show (s.showCodeSnippetsBody snippets params).calls = _
      rw [showCodeSnippetsBody_calls]
      by_cases hs : params.showContents = true <;> simp [hs, UnitOfWork.performsScroll]
    · intro c hc
      simp only [List.mem_append, List.mem_map] at hc
      rcases hc with hc | ⟨x, _, rfl⟩ | hc | hc
      · unfold clearCalls at hc
        by_cases h1 : params.clearSnippets = true <;> by_cases h2 : snippets.length = 0 <;>
          simp [h1, h2] at hc <;> (try rcases hc with rfl | rfl | rfl | rfl) <;>
          simp [Call.isScroll]
      · unfold addCall
        split <;> rfl
      · split at hc
        · simp at hc; subst hc; rfl
        · simp at hc
      · split at hc
        · simp at hc; rcases hc with rfl | rfl <;> rfl
        · simp at hc
    · intro h
      have hs : params.showContents = true := h
      simp [hs]
  | setFileState filePath state =>
    cases state
    · exact ⟨[Call.setFileMinimized filePath], by simp [QtCodeView.run, UnitOfWork.performsScroll],
        by simp [Call.isScroll], by simp [UnitOfWork.performsScroll]⟩
    · exact ⟨[Call.setFileSnippets filePath], by simp [QtCodeView.run, UnitOfWork.performsScroll],
        by simp [Call.isScroll], by simp [UnitOfWork.performsScroll]⟩
    · exact ⟨[Call.setFileMaximized filePath], by simp [QtCodeView.run, UnitOfWork.performsScroll],
        by simp [Call.isScroll], by simp [UnitOfWork.performsScroll]⟩
  | refreshView =>
    exact ⟨[Call.setWidgetBackgroundColor (e.getColor "code/background"),
        Call.setStyleSheet (e.getStyleSheet (e.getGuiPath ++ "code_view/code_view.css")),
        Call.refreshStyle, Call.clearAnnotationColors, Call.clearHighlightingRules],
      by simp [QtCodeView.run, QtCodeView.setStyleSheet, UnitOfWork.performsScroll],
      by simp [Call.isScroll], by simp [UnitOfWork.performsScroll]⟩
  | findMatches sender query =>
    exact ⟨[Call.findScreenMatches query,
        Call.foundMatches sender (e.findScreenMatches query s.calls)],
      by simp [QtCodeView.run, UnitOfWork.performsScroll],
      by simp [Call.isScroll], by simp [UnitOfWork.performsScroll]⟩
  | activateMatch matchIndex =>
    exact ⟨[Call.activateScreenMatch matchIndex],
      by simp [QtCodeView.run, UnitOfWork.performsScroll],
      by simp [Call.isScroll], by simp [UnitOfWork.performsScroll]⟩
  | deactivateMatch matchIndex =>
    exact ⟨[Call.deactivateScreenMatch matchIndex],
      by simp [QtCodeView.run, UnitOfWork.performsScroll],
      by simp [Call.isScroll], by simp [UnitOfWork.performsScroll]⟩
  | clearMatches =>
    exact ⟨[Call.clearScreenMatches], by simp [QtCodeView.run, UnitOfWork.performsScroll],
      by simp [Call.isScroll], by simp [UnitOfWork.performsScroll]⟩
  | clear =>
    exact ⟨[Call.clear], by simp [QtCodeView.run, UnitOfWork.performsScroll],
      by simp [Call.isScroll], by simp [UnitOfWork.performsScroll]⟩
  | showActiveSnippet activeTokenIds collection scrollTo =>
    exact ⟨[Call.showActiveSnippet activeTokenIds collection scrollTo],
      by simp [QtCodeView.run, UnitOfWork.performsScroll],
      by simp [Call.isScroll], by simp [UnitOfWork.performsScroll]⟩
  | showActiveTokenIds activeTokenIds =>
    exact ⟨[Call.setActiveTokenIds activeTokenIds, Call.updateFiles],
      by simp [QtCodeView.run, UnitOfWork.performsScroll, QtCodeView.performScroll_calls],
      by simp [Call.isScroll], by simp⟩
  | showActiveLocalSymbolIds activeLocalSymbolIds =>
    exact ⟨[Call.setActiveLocalSymbolIds activeLocalSymbolIds, Call.updateFiles],
      by simp [QtCodeView.run, UnitOfWork.performsScroll],
      by simp [Call.isScroll], by simp⟩
  | focusTokenIds focusedTokenIds =>
    exact ⟨[Call.focusTokenIds focusedTokenIds],
      by simp [QtCodeView.run, UnitOfWork.performsScroll],
      by simp [Call.isScroll], by simp [UnitOfWork.performsScroll]⟩
  | defocusTokenIds =>
    exact ⟨[Call.defocusTokenIds], by simp [QtCodeView.run, UnitOfWork.performsScroll],
      by simp [Call.isScroll], by simp [UnitOfWork.performsScroll]⟩
  | showContents =>
    exact ⟨[Call.updateFiles, Call.showContents],
      by simp [QtCodeView.run, UnitOfWork.performsScroll, QtCodeView.performScroll_calls],
      by simp [Call.isScroll], by simp⟩
  | setMode listMode =>
    exact ⟨[Call.setMode (if listMode then Mode.MODE_LIST else Mode.MODE_SINGLE)],
      by simp [QtCodeView.run, UnitOfWork.performsScroll],
      by simp [Call.isScroll], by simp [UnitOfWork.performsScroll]⟩

theorem dispatch_no_content (p : ScrollParams) :
    ∀ c ∈ dispatch p ++ [Call.scrollToSnippetIfRequested], c.isContentUpdate = false := by
  unfold dispatch
  cases p.type <;> simp [Call.isContentUpdate]

/-- In `pre ++ post`, when `pre` holds no scroll call and `post` no content update, every
content update comes before every scroll call. -/
theorem ordered_of_split (pre post : List Call) (hpre : ∀ c ∈ pre, c.isScroll = false)
    (hpost : ∀ c ∈ post, c.isContentUpdate = false) (i j : Nat) (c d : Call)
    (hi : (pre ++ post)[i]? = some c) (hj : (pre ++ post)[j]? = some d)
    (hc : c.isContentUpdate = true) (hd : d.isScroll = true) : i < j := by
  by_contra hlt
  have hji : j ≤ i := Nat.le_of_not_lt hlt
  by_cases hip : i < pre.length
  · have hjp : j < pre.length := Nat.lt_of_le_of_lt hji hip
    rw [List.getElem?_append_left hjp] at hj
    have hm : d ∈ pre := List.getElem?_mem hj
    rw [hpre d hm] at hd
    exact Bool.noConfusion hd
  · rw [List.getElem?_append_right (Nat.le_of_not_lt hip)] at hi
    have hm : c ∈ post := List.getElem?_mem hi
    rw [hpost c hm] at hc
    exact Bool.noConfusion hc

theorem call_consumesIntent (e : External) (op : Op) (v : QtCodeView)
    (h : op.consumesIntent = true) :
    ∃ u, u.performsScroll = true ∧ v.call e op = v.onQtThread u := by
  cases op with
  | showCodeSnippets snippets params =>
    exact ⟨UnitOfWork.showCodeSnippets snippets params, h, rfl⟩
  | showActiveTokenIds activeTokenIds =>
    exact ⟨UnitOfWork.showActiveTokenIds activeTokenIds, rfl, rfl⟩
  | showContents => exact ⟨UnitOfWork.showContents, rfl, rfl⟩
  | _ => simp [Op.consumesIntent] at h

theorem call_keepsIntent (e : External) (op : Op) (v : QtCodeView)
    (h : op.keepsIntent = true) :
    v.call e op = v ∨ ∃ u, u.performsScroll = false ∧ v.call e op = v.onQtThread u := by
  cases op with
  | showCodeSnippets snippets params =>
    refine Or.inr ⟨UnitOfWork.showCodeSnippets snippets params, ?_, rfl⟩
    simpa [Op.keepsIntent, UnitOfWork.performsScroll] using h
  | setMode listMode =>
    by_cases hm : v.isInListMode e = listMode
    · exact Or.inl (by simp [QtCodeView.call, QtCodeView.setMode, hm])
    · exact Or.inr ⟨UnitOfWork.setMode listMode, rfl,
        by simp [QtCodeView.call, QtCodeView.setMode, hm]⟩
  | showActiveLocalSymbolIds ids =>
    exact Or.inr ⟨UnitOfWork.showActiveLocalSymbolIds ids, rfl, rfl⟩
  | showActiveSnippet a b c => exact Or.inr ⟨UnitOfWork.showActiveSnippet a b c, rfl, rfl⟩
  | focusTokenIds ids => exact Or.inr ⟨UnitOfWork.focusTokenIds ids, rfl, rfl⟩
  | defocusTokenIds => exact Or.inr ⟨UnitOfWork.defocusTokenIds, rfl, rfl⟩
  | setFileState a b => exact Or.inr ⟨UnitOfWork.setFileState a b, rfl, rfl⟩
  | refreshView => exact Or.inr ⟨UnitOfWork.refreshView, rfl, rfl⟩
  | findMatches a b => exact Or.inr ⟨UnitOfWork.findMatches a b, rfl, rfl⟩
  | activateMatch a => exact Or.inr ⟨UnitOfWork.activateMatch a, rfl, rfl⟩
  | deactivateMatch a => exact Or.inr ⟨UnitOfWork.deactivateMatch a, rfl, rfl⟩
  | clearMatches => exact Or.inr ⟨UnitOfWork.clearMatches, rfl, rfl⟩
  | _ => simp [Op.keepsIntent] at h

/-- A lambda body that does not end in `performScroll` keeps the intent and makes no
scroll call. -/
theorem run_passive (e : External) (u : UnitOfWork) (s : QtCodeView)
    (hu : u.performsScroll = false) :
    (QtCodeView.run e u s).m_scrollParams = s.m_scrollParams ∧
    (QtCodeView.run e u s).m_onQtThread = s.m_onQtThread ∧
    ∃ new, (QtCodeView.run e u s).calls = s.calls ++ new ∧ ∀ c ∈ new, c.isScroll = false := by
  refine ⟨by simp [run_scrollParams, hu], run_queue e u s, ?_⟩
  obtain ⟨pre, hcalls, hpre, _⟩ := run_calls e u s
  refine ⟨pre, ?_, hpre⟩
  simpa [hu] using hcalls

theorem foldl_run_passive (e : External) (q : List UnitOfWork) (s : QtCodeView)
    (hq : ∀ u ∈ q, u.performsScroll = false) :
    (q.foldl (fun s u => QtCodeView.run e u s) s).m_scrollParams = s.m_scrollParams ∧
    (q.foldl (fun s u => QtCodeView.run e u s) s).m_onQtThread = s.m_onQtThread ∧
    ∃ new, (q.foldl (fun s u => QtCodeView.run e u s) s).calls = s.calls ++ new ∧
      ∀ c ∈ new, c.isScroll = false := by
  induction q generalizing s with
  | nil => exact ⟨rfl, rfl, [], by simp, by simp⟩
  | cons u rest ih =>
    have hu : u.performsScroll = false := hq u (List.mem_cons_self _ _)
    obtain ⟨h1, h2, n1, h3, h4⟩ := run_passive e u s hu
    obtain ⟨k1, k2, n2, k3, k4⟩ :=
      ih (QtCodeView.run e u s) (fun x hx => hq x (List.mem_cons_of_mem _ hx))
    refine ⟨by rw [List.foldl_cons, k1, h1], by rw [List.foldl_cons, k2, h2], n1 ++ n2, ?_, ?_⟩
    · rw [List.foldl_cons, k3, h3, List.append_assoc]
    · intro c hc
      rcases List.mem_append.mp hc with hc | hc
      · exact h4 c hc
      · exact k4 c hc

/-- One event that keeps the intent, on a view whose pending units of work do not end in
`performScroll`. -/
theorem step_keepsIntent (e : External) (s : QtCodeView) (ev : Event)
    (hq : ∀ u ∈ s.m_onQtThread, u.performsScroll = false) (hev : ev.keepsIntent = true) :
    (s.step e ev).m_scrollParams = s.m_scrollParams ∧
    (∀ u ∈ (s.step e ev).m_onQtThread, u.performsScroll = false) ∧
    ∃ new, (s.step e ev).calls = s.calls ++ new ∧ ∀ c ∈ new, c.isScroll = false := by
  cases ev with
  | call op =>
    rcases call_keepsIntent e op s hev with h | ⟨u, hu, h⟩
    · have hs : s.step e (Event.call op) = s := h
      rw [hs]
      exact ⟨rfl, hq, [], by simp, by simp⟩
    · have hs : s.step e (Event.call op) = s.onQtThread u := h
      rw [hs]
      refine ⟨rfl, ?_, [], by simp, by simp⟩
      intro x hx
      rw [QtCodeView.onQtThread_queue, List.mem_append, List.mem_singleton] at hx
      rcases hx with hx | rfl
      · exact hq x hx
      · exact hu
  | tick =>
    cases hqueue : s.m_onQtThread with
    | nil =>
      have hs : s.step e Event.tick = s := by simp [QtCodeView.step, QtCodeView.runNext, hqueue]
      rw [hs]
      exact ⟨rfl, hq, [], by simp, by simp⟩
    | cons u rest =>
      have hs : s.step e Event.tick = QtCodeView.run e u { s with m_onQtThread := rest } := by
        simp [QtCodeView.step, QtCodeView.runNext, hqueue]
      rw [hs]
      have hu : u.performsScroll = false := hq u (by simp [hqueue])
      obtain ⟨h1, h2, n, h3, h4⟩ := run_passive e u { s with m_onQtThread := rest } hu
      refine ⟨h1, ?_, n, h3, h4⟩
      intro x hx
      rw [h2] at hx
      exact hq x (by rw [hqueue]; exact List.mem_cons_of_mem _ hx)

theorem foldl_step_keepsIntent (e : External) (es : List Event) (s : QtCodeView)
    (hq : ∀ u ∈ s.m_onQtThread, u.performsScroll = false)
    (hes : ∀ ev ∈ es, ev.keepsIntent = true) :
    (es.foldl (fun s ev => s.step e ev) s).m_scrollParams = s.m_scrollParams ∧
    (∀ u ∈ (es.foldl (fun s ev => s.step e ev) s).m_onQtThread, u.performsScroll = false) ∧
    ∃ new, (es.foldl (fun s ev => s.step e ev) s).calls = s.calls ++ new ∧
      ∀ c ∈ new, c.isScroll = false := by
  induction es generalizing s with
  | nil => exact ⟨rfl, hq, [], by simp, by simp⟩
  | cons ev rest ih =>
    obtain ⟨h1, h2, n1, h3, h4⟩ := step_keepsIntent e s ev hq (hes ev (List.mem_cons_self _ _))
    obtain ⟨k1, k2, n2, k3, k4⟩ :=
      ih (s.step e ev) h2 (fun x hx => hes x (List.mem_cons_of_mem _ hx))
    refine ⟨by rw [List.foldl_cons, k1, h1], by rw [List.foldl_cons]; exact k2, n1 ++ n2, ?_, ?_⟩
    · rw [List.foldl_cons, k3, h3, List.append_assoc]
    · intro c hc
      rcases List.mem_append.mp hc with hc | hc
      · exact h4 c hc
      · exact k4 c hc

/-- What a public method stores into `m_scrollParams` on the caller's thread. -/
theorem call_scrollParams (e : External) (op : Op) (v : QtCodeView) :
    (v.call e op).m_scrollParams =
      (match op with
        | Op.scrollTo p => p
        | Op.clear => ScrollParams.default
        | _ => v.m_scrollParams) := by
  cases op with
  | setMode listMode =>
    by_cases hm : v.isInListMode e = listMode <;> simp [QtCodeView.call, QtCodeView.setMode, hm]
  | _ => rfl

/-- An event other than a call of `scrollTo` keeps an idle intent idle. -/
theorem step_scrollParams_default (e : External) (s : QtCodeView) (ev : Event)
    (hs : s.m_scrollParams = ScrollParams.default) (hev : ev.isScrollTo = false) :
    (s.step e ev).m_scrollParams = ScrollParams.default := by
  cases ev with
  | call op =>
    show (s.call e op).m_scrollParams = _
    rw [call_scrollParams]
    cases op <;> first | exact hs | rfl | simp [Event.isScrollTo] at hev
  | tick =>
    show (s.runNext e).m_scrollParams = _
    unfold QtCodeView.runNext
    cases hq : s.m_onQtThread with
    | nil => exact hs
    | cons u rest => exact run_scrollParams_default e u _ hs

theorem foldl_step_scrollParams_default (e : External) (es : List Event) (s : QtCodeView)
    (hs : s.m_scrollParams = ScrollParams.default) (hes : ∀ ev ∈ es, ev.isScrollTo = false) :
    (es.foldl (fun s ev => s.step e ev) s).m_scrollParams = ScrollParams.default := by
  induction es generalizing s with
  | nil => exact hs
  | cons ev rest ih =>
    exact ih (s.step e ev)
      (step_scrollParams_default e s ev hs (hes ev (List.mem_cons_self _ _)))
      (fun x hx => hes x (List.mem_cons_of_mem _ hx))

/-! ## The claims -/

/-- C1, as amended: after any non-empty run `scrollTo(p1), ..., scrollTo(pn)` and one
`performScroll`, the run itself has made no call and submitted no unit of work, and the
variant-specific scroll calls that `performScroll` makes are exactly the one selected by
`pn.type` with the fields of `pn`: one call for the three scroll types, none for
`SCROLL_NONE`. -/
theorem C1_last_scrollTo_selects_dispatch (ps : List ScrollParams) (pn : ScrollParams)
    (v : QtCodeView) :
    let w := (ps ++ [pn]).foldl (fun s p => s.scrollTo p) v
    w.calls = v.calls ∧ w.m_onQtThread = v.m_onQtThread ∧
    ∃ new, w.performScroll.calls = v.calls ++ new ∧
      new.filter Call.isVariantScroll =
        (match pn.type with
          | ScrollType.SCROLL_TO_DEFINITION =>
              [Call.scrollToDefinition pn.animated pn.ignoreActiveReference]
          | ScrollType.SCROLL_TO_LINE => [Call.scrollToLine pn.filePath pn.line]
          | ScrollType.SCROLL_TO_VALUE => [Call.scrollToValue pn.value pn.inListMode]
          | ScrollType.SCROLL_NONE => []) := by
  intro w
  obtain ⟨hc, hq, hp⟩ := foldl_scrollTo ps pn v
  refine ⟨hc, hq, dispatch pn ++ [Call.scrollToSnippetIfRequested], ?_, ?_⟩
  · rw [QtCodeView.performScroll_calls, hc, hp]
  · rw [List.filter_append, dispatch_filter_variant]
    unfold dispatch
    cases pn.type <;> simp [Call.isVariantScroll]

/-- C1, the claim as stated fails: `scrollTo(ToLine a.cpp 42)`, then `scrollTo` of the idle
intent, then `performScroll` makes the single call `scrollToSnippetIfRequested`, so the
number of variant-specific scroll calls is zero, not one. -/
theorem C1_idle_last_counterexample :
    (((QtCodeView.fresh.scrollTo ScrollParams.sampleToLine).scrollTo
        ScrollParams.default).performScroll).calls = [Call.scrollToSnippetIfRequested] ∧
    ((((QtCodeView.fresh.scrollTo ScrollParams.sampleToLine).scrollTo
        ScrollParams.default).performScroll).calls.filter Call.isVariantScroll).length ≠ 1 := by
  constructor
  · rfl
  · decide

/-- C1 on the scenario of the spec: `scrollTo(ToLine a.cpp 42)`, `scrollTo(ToValue 7)` in
list mode, `performScroll`: the calls are `scrollToValue(7, true)` and
`scrollToSnippetIfRequested`, with no `scrollToLine`. -/
theorem C1_last_scrollTo_selects_dispatch_witness :
    (((QtCodeView.fresh.scrollTo ScrollParams.sampleToLine).scrollTo
        ScrollParams.sampleToValue).performScroll).calls
      = [Call.scrollToValue 7 true, Call.scrollToSnippetIfRequested] ∧
    ∃ new, (((QtCodeView.fresh.scrollTo ScrollParams.sampleToLine).scrollTo
        ScrollParams.sampleToValue).performScroll).calls = QtCodeView.fresh.calls ++ new ∧
      new.filter Call.isVariantScroll = [Call.scrollToValue 7 true] :=
  ⟨rfl, (C1_last_scrollTo_selects_dispatch [ScrollParams.sampleToLine]
    ScrollParams.sampleToValue QtCodeView.fresh).2.2⟩

/-- C2: whatever intent is stored, after `performScroll` the stored intent is the
default-constructed `ScrollParams`, and a second `performScroll` right afterwards makes
no variant-specific scroll call. -/
theorem C2_performScroll_resets_intent (v : QtCodeView) :
    v.performScroll.m_scrollParams = ScrollParams.default ∧
    ∃ new, v.performScroll.performScroll.calls = v.performScroll.calls ++ new ∧
      new.filter Call.isVariantScroll = [] := by
  refine ⟨rfl, [Call.scrollToSnippetIfRequested], ?_, by decide⟩
  rw [QtCodeView.performScroll_calls v.performScroll]
  simp [dispatch_default]

/-- C3: every `performScroll` makes its calls in the form `pre ++ [scrollToSnippetIfRequested]`
where `pre` holds at most one call and only variant-specific scroll calls, so
`scrollToSnippetIfRequested` is called exactly once and last; with the idle intent
(type `SCROLL_NONE`, the type of the default-constructed `ScrollParams`) `pre` is empty. -/
theorem C3_performScroll_snippet_step (v : QtCodeView) :
    ∃ pre, v.performScroll.calls = v.calls ++ (pre ++ [Call.scrollToSnippetIfRequested]) ∧
      (∀ c ∈ pre, c.isVariantScroll = true) ∧ pre.length ≤ 1 ∧
      (pre ++ [Call.scrollToSnippetIfRequested]).count Call.scrollToSnippetIfRequested = 1 ∧
      (v.m_scrollParams.type = ScrollType.SCROLL_NONE → pre = []) := by
  refine ⟨dispatch v.m_scrollParams, QtCodeView.performScroll_calls v,
    dispatch_all_variant _, dispatch_length_le _, ?_, ?_⟩
  · unfold dispatch
    cases v.m_scrollParams.type <;> simp
  · intro h
    unfold dispatch
    rw [h]

/-- C3 at the default intent: the only call is `scrollToSnippetIfRequested`. -/
theorem C3_performScroll_snippet_step_witness :
    ScrollParams.default.type = ScrollType.SCROLL_NONE ∧
    QtCodeView.fresh.performScroll.calls = [Call.scrollToSnippetIfRequested] := by
  refine ⟨rfl, ?_⟩
  obtain ⟨pre, h, _, _, _, hidle⟩ := C3_performScroll_snippet_step QtCodeView.fresh
  rw [h, hidle rfl]
  rfl

/-- C4: when `isInListMode()` equals `listMode`, `setMode(listMode)` changes nothing: no unit
of work is submitted and no call is made. Otherwise it makes no call on the caller's
thread and submits exactly one unit of work, whose body makes the single call
`setMode(MODE_LIST)` for `listMode = true` and `setMode(MODE_SINGLE)` for `false`. -/
theorem C4_setMode_guard (e : External) (listMode : Bool) (v : QtCodeView) :
    (v.isInListMode e = listMode → v.setMode e listMode = v) ∧
    (v.isInListMode e ≠ listMode →
      (v.setMode e listMode).calls = v.calls ∧
      ∃ u, (v.setMode e listMode).m_onQtThread = v.m_onQtThread ++ [u] ∧
        ∀ s : QtCodeView, (QtCodeView.run e u s).calls =
          s.calls ++ [Call.setMode (match listMode with
            | true => Mode.MODE_LIST
            | false => Mode.MODE_SINGLE)]) := by
  constructor
  · intro h
    simp [QtCodeView.setMode, h]
  · intro h
    refine ⟨by simp [QtCodeView.setMode, h], UnitOfWork.setMode listMode,
      by simp [QtCodeView.setMode, h], ?_⟩
    intro s
    cases listMode <;> simp [QtCodeView.run]

/-- C4 on a widget in single mode: `setMode(false)` changes nothing, `setMode(true)` queues
one unit of work that calls `setMode(MODE_LIST)`. -/
theorem C4_setMode_guard_witness :
    QtCodeView.fresh.isInListMode External.sample = false ∧
    QtCodeView.fresh.setMode External.sample false = QtCodeView.fresh ∧
    (QtCodeView.fresh.setMode External.sample true).calls = [] ∧
    (QtCodeView.drain External.sample (QtCodeView.fresh.setMode External.sample true)).calls
      = [Call.setMode Mode.MODE_LIST] := by
  have h0 : QtCodeView.fresh.isInListMode External.sample = false := by decide
  refine ⟨h0, (C4_setMode_guard External.sample false QtCodeView.fresh).1 h0, ?_, by decide⟩
  exact ((C4_setMode_guard External.sample true QtCodeView.fresh).2 (by rw [h0]; decide)).1

/-- C5: right after `clear()` returns, with the widget's `clear` still pending and no call
made yet, the stored intent is the default-constructed `ScrollParams`. It stays so through
every sequence of events without a `scrollTo` (other public methods called, the UI thread
running pending units of work, the widget's `clear` among them), and a `performScroll`
after them makes no variant-specific scroll call. -/
theorem C5_clear_resets_intent (e : External) (v : QtCodeView) (es : List Event)
    (hes : ∀ ev ∈ es, ev.isScrollTo = false) :
    v.clear.m_scrollParams = ScrollParams.default ∧
    v.clear.calls = v.calls ∧
    v.clear.m_onQtThread = v.m_onQtThread ++ [UnitOfWork.clear] ∧
    (es.foldl (fun s ev => s.step e ev) v.clear).m_scrollParams = ScrollParams.default ∧
    ∃ new, (es.foldl (fun s ev => s.step e ev) v.clear).performScroll.calls =
        (es.foldl (fun s ev => s.step e ev) v.clear).calls ++ new ∧
      new.filter Call.isVariantScroll = [] := by
  have hd := foldl_step_scrollParams_default e es v.clear rfl hes
  refine ⟨rfl, rfl, rfl, hd, [Call.scrollToSnippetIfRequested], ?_, by decide⟩
  rw [QtCodeView.performScroll_calls, hd]
  rfl

/-- C5 with a `ToLine` intent pending: `clear()` alone, with the widget's `clear` not run
yet, already resets the intent; after the UI thread has run it, `performScroll` only calls
`scrollToSnippetIfRequested`. -/
theorem C5_clear_resets_intent_witness :
    (∀ ev ∈ [Event.tick], ev.isScrollTo = false) ∧
    (QtCodeView.fresh.scrollTo ScrollParams.sampleToLine).clear.calls = [] ∧
    (QtCodeView.fresh.scrollTo ScrollParams.sampleToLine).clear.m_scrollParams
      = ScrollParams.default ∧
    ([Event.tick].foldl (fun s ev => s.step External.sample ev)
      (QtCodeView.fresh.scrollTo ScrollParams.sampleToLine).clear).performScroll.calls
      = [Call.clear, Call.scrollToSnippetIfRequested] := by
  have h := C5_clear_resets_intent External.sample
    (QtCodeView.fresh.scrollTo ScrollParams.sampleToLine) [Event.tick] (by decide)
  exact ⟨by decide, h.2.1, h.1, by decide⟩

/-- C8: `scrollTo(p)` makes no call and submits no unit of work; afterwards the stored
intent is `p`, whatever was stored before. -/
theorem C8_scrollTo_only_stores (p : ScrollParams) (v : QtCodeView) :
    (v.scrollTo p).calls = v.calls ∧
    (v.scrollTo p).m_onQtThread = v.m_onQtThread ∧
    (v.scrollTo p).m_scrollParams = p :=
  ⟨rfl, rfl, rfl⟩

/-- C9: `showCodeSnippets` submits one unit of work. Its calls are `pre ++ adds ++ fin ++ post`
where `adds` holds one call per snippet in list order (`addFile` with the location file,
reference count and modification time of a collapsed snippet, `addCodeSnippet` of the
snippet otherwise), `fin` is the single call `addedFiles` when some snippet is collapsed
and empty when none is, and neither `pre` nor `post` holds an add call or `addedFiles`. -/
theorem C9_showCodeSnippets_adds (e : External) (snippets : List CodeSnippetParams)
    (params : CodeParams) (v : QtCodeView) :
    ∃ u, (v.showCodeSnippets snippets params).m_onQtThread = v.m_onQtThread ++ [u] ∧
      ∀ s : QtCodeView, ∃ pre post,
        (QtCodeView.run e u s).calls = s.calls ++ (pre ++
          (snippets.map (fun x =>
              if x.isCollapsed then Call.addFile x.locationFile x.refCount x.modificationTime
              else Call.addCodeSnippet x) ++
            ((if snippets.any (fun x => x.isCollapsed) then [Call.addedFiles] else []) ++
              post))) ∧
        (∀ c ∈ pre ++ post, c.isAdd = false ∧ c ≠ Call.addedFiles) := by
  refine ⟨UnitOfWork.showCodeSnippets snippets params, rfl, ?_⟩
  intro s
  refine ⟨clearCalls snippets params,
    (if params.showContents then
      [Call.updateFiles, Call.showContents] ++
        (dispatch s.m_scrollParams ++ [Call.scrollToSnippetIfRequested])
    else []), ?_, ?_⟩
  · show (s.showCodeSnippetsBody snippets params).calls = _
    rw [showCodeSnippetsBody_calls]
    rfl
  · intro c hc
    rw [List.mem_append] at hc
    rcases hc with hc | hc
    · unfold clearCalls at hc
      by_cases h1 : params.clearSnippets = true <;> by_cases h2 : snippets.length = 0 <;>
        simp [h1, h2] at hc <;> (try rcases hc with rfl | rfl | rfl | rfl) <;>
        simp [Call.isAdd]
    · by_cases h1 : params.showContents = true
      · simp only [h1, if_true, List.mem_append, List.mem_cons, List.mem_singleton,
          List.not_mem_nil, or_false] at hc
        rcases hc with (rfl | rfl) | hc | rfl
        · simp [Call.isAdd]
        · simp [Call.isAdd]
        · have hv := dispatch_all_variant _ c hc
          cases c <;> simp_all [Call.isAdd, Call.isVariantScroll]
        · simp [Call.isAdd]
      · simp [h1] at hc

/-- C6, as amended: on the caller's thread a public method writes `m_scrollParams` only in
`scrollTo` (the argument is stored) and in `clear` (the default is stored); every other
public method leaves it unchanged there. No public method reads it on the caller's
thread: with any other intent stored beforehand, the calls made, the units of work
submitted and the answer of every query method are the same. -/
theorem C6_caller_thread_access (e : External) (op : Op) (q : Query) (v : QtCodeView)
    (sp : ScrollParams) :
    (v.call e op).m_scrollParams =
      (match op with
        | Op.scrollTo p => p
        | Op.clear => ScrollParams.default
        | _ => v.m_scrollParams) ∧
    (QtCodeView.call e op { v with m_scrollParams := sp }).calls = (v.call e op).calls ∧
    (QtCodeView.call e op { v with m_scrollParams := sp }).m_onQtThread
      = (v.call e op).m_onQtThread ∧
    QtCodeView.ask e q { v with m_scrollParams := sp } = v.ask e q := by
  refine ⟨call_scrollParams e op v, ?_, ?_, ?_⟩
  · cases op with
    | setMode listMode =>
      have hsame : QtCodeView.isInListMode e { v with m_scrollParams := sp }
          = v.isInListMode e := rfl
      by_cases hm : v.isInListMode e = listMode <;>
        simp [QtCodeView.call, QtCodeView.setMode, hm, hsame]
    | _ => rfl
  · cases op with
    | setMode listMode =>
      have hsame : QtCodeView.isInListMode e { v with m_scrollParams := sp }
          = v.isInListMode e := rfl
      by_cases hm : v.isInListMode e = listMode <;>
        simp [QtCodeView.call, QtCodeView.setMode, hm, hsame]
    | _ => rfl
  · cases q <;> rfl

/-- C6, the claim as stated fails: `scrollTo` stores the intent on the caller's thread
without submitting a unit of work, and `clear` resets the stored intent on the caller's
thread while the unit of work it submitted is still pending. -/
theorem C6_caller_thread_write_counterexample :
    (QtCodeView.fresh.call External.sample (Op.scrollTo ScrollParams.sampleToLine)).m_onQtThread
      = [] ∧
    (QtCodeView.fresh.call External.sample (Op.scrollTo ScrollParams.sampleToLine)).m_scrollParams
      ≠ QtCodeView.fresh.m_scrollParams ∧
    ((QtCodeView.fresh.scrollTo ScrollParams.sampleToLine).call External.sample
      Op.clear).m_onQtThread = [UnitOfWork.clear] ∧
    ((QtCodeView.fresh.scrollTo ScrollParams.sampleToLine).call External.sample
      Op.clear).m_scrollParams ≠ (QtCodeView.fresh.scrollTo ScrollParams.sampleToLine).m_scrollParams := by
  decide

/-- C7: an operation that consumes the scroll intent makes no call on the caller's thread
and submits one unit of work. In the calls of that unit of work every content-update call
stands before every scroll call, `updateFiles` stands before every scroll call, and a
scroll call is made (`scrollToSnippetIfRequested`). -/
theorem C7_content_updates_before_scroll (e : External) (op : Op) (v : QtCodeView)
    (h : op.consumesIntent = true) :
    (v.call e op).calls = v.calls ∧
    ∃ u, (v.call e op).m_onQtThread = v.m_onQtThread ++ [u] ∧
      ∀ s : QtCodeView, ∃ new, (QtCodeView.run e u s).calls = s.calls ++ new ∧
        (∀ (i j : Nat) (c d : Call), new[i]? = some c → new[j]? = some d →
          c.isContentUpdate = true → d.isScroll = true → i < j) ∧
        (∃ k, new[k]? = some Call.updateFiles ∧
          ∀ (j : Nat) (d : Call), new[j]? = some d → d.isScroll = true → k < j) ∧
        Call.scrollToSnippetIfRequested ∈ new := by
  obtain ⟨u, hu, hcall⟩ := call_consumesIntent e op v h
  rw [hcall]
  refine ⟨rfl, u, rfl, ?_⟩
  intro s
  obtain ⟨pre, hcalls, hpre, hupd⟩ := run_calls e u s
  simp only [hu, if_true] at hcalls
  have hord := ordered_of_split pre (dispatch s.m_scrollParams ++ [Call.scrollToSnippetIfRequested])
    hpre (dispatch_no_content s.m_scrollParams)
  refine ⟨_, hcalls, fun i j c d => hord i j c d, ?_, by simp⟩
  obtain ⟨k, hk⟩ := List.getElem?_of_mem (hupd hu)
  have hklt : k < pre.length := by
    by_contra hge
    rw [List.getElem?_eq_none (Nat.le_of_not_lt hge)] at hk
    exact Option.noConfusion hk
  have hk2 : (pre ++ (dispatch s.m_scrollParams ++ [Call.scrollToSnippetIfRequested]))[k]?
      = some Call.updateFiles := by
    rw [List.getElem?_append_left hklt]
    exact hk
  exact ⟨k, hk2, fun j d hj hd => hord k j Call.updateFiles d hk2 hj rfl hd⟩

/-- C7 on two snippets, one collapsed, with `clearSnippets` and `showContents` set and a
`ToLine` intent pending: the calls of the unit of work, in order. -/
theorem C7_content_updates_before_scroll_witness :
    (Op.showCodeSnippets CodeSnippetParams.samples (CodeParams.sample true)).consumesIntent
      = true ∧
    (QtCodeView.drain External.sample
      ((QtCodeView.fresh.scrollTo ScrollParams.sampleToLine).call External.sample
        (Op.showCodeSnippets CodeSnippetParams.samples (CodeParams.sample true)))).calls =
    [Call.clearCodeSnippets, Call.setActiveTokenIds [1], Call.setErrorInfos [],
      Call.addFile "a.cpp" 2 5,
      Call.addCodeSnippet
        { locationFile := "b.cpp", isCollapsed := false, refCount := 1, modificationTime := 6 },
      Call.addedFiles, Call.updateFiles, Call.showContents, Call.scrollToLine "a.cpp" 42,
      Call.scrollToSnippetIfRequested] ∧
    ∃ u, ((QtCodeView.fresh.scrollTo ScrollParams.sampleToLine).call External.sample
        (Op.showCodeSnippets CodeSnippetParams.samples (CodeParams.sample true))).m_onQtThread
        = (QtCodeView.fresh.scrollTo ScrollParams.sampleToLine).m_onQtThread ++ [u] ∧
      ∀ s : QtCodeView, ∃ new, (QtCodeView.run External.sample u s).calls = s.calls ++ new ∧
        (∀ (i j : Nat) (c d : Call), new[i]? = some c → new[j]? = some d →
          c.isContentUpdate = true → d.isScroll = true → i < j) ∧
        (∃ k, new[k]? = some Call.updateFiles ∧
          ∀ (j : Nat) (d : Call), new[j]? = some d → d.isScroll = true → k < j) ∧
        Call.scrollToSnippetIfRequested ∈ new :=
  ⟨rfl, rfl, (C7_content_updates_before_scroll External.sample
    (Op.showCodeSnippets CodeSnippetParams.samples (CodeParams.sample true))
    (QtCodeView.fresh.scrollTo ScrollParams.sampleToLine) rfl).2⟩

/-- C10: start in any state in which no pending unit of work ends in `performScroll` (such
a unit belongs to an earlier operation that shows contents), and let any sequence of
events happen in which every public method called is one that does not show contents
(`Op.keepsIntent`), the UI thread running pending units of work at any points in between.
Then the stored intent is unchanged, no scroll call has been made, and a following
`showContents()`, once the UI thread has run the queue, makes exactly the scroll calls
selected by the stored intent followed by `scrollToSnippetIfRequested`. -/
theorem C10_intent_survives_passive_ops (e : External) (v : QtCodeView) (es : List Event)
    (hq : ∀ u ∈ v.m_onQtThread, u.performsScroll = false)
    (hes : ∀ ev ∈ es, ev.keepsIntent = true) :
    (es.foldl (fun s ev => s.step e ev) v).m_scrollParams = v.m_scrollParams ∧
    (∃ new, (es.foldl (fun s ev => s.step e ev) v).calls = v.calls ++ new ∧
      new.filter Call.isScroll = []) ∧
    (∃ new, (QtCodeView.drain e (es.foldl (fun s ev => s.step e ev) v).showContents).calls =
        (es.foldl (fun s ev => s.step e ev) v).calls ++ new ∧
      new.filter Call.isScroll =
        (match v.m_scrollParams.type with
          | ScrollType.SCROLL_TO_DEFINITION =>
              [Call.scrollToDefinition v.m_scrollParams.animated
                v.m_scrollParams.ignoreActiveReference]
          | ScrollType.SCROLL_TO_LINE =>
              [Call.scrollToLine v.m_scrollParams.filePath v.m_scrollParams.line]
          | ScrollType.SCROLL_TO_VALUE =>
              [Call.scrollToValue v.m_scrollParams.value v.m_scrollParams.inListMode]
          | ScrollType.SCROLL_NONE => []) ++ [Call.scrollToSnippetIfRequested]) := by
  obtain ⟨h1, h2, n1, h3, h4⟩ :=
    foldl_step_keepsIntent e es v hq hes
  refine ⟨h1, ⟨n1, h3, List.filter_eq_nil_iff.mpr (fun c hc => by simp [h4 c hc])⟩, ?_⟩
  generalize es.foldl (fun s ev => s.step e ev) v = w at h1 h2 h3 h4
  have hdrain : QtCodeView.drain e w.showContents =
      QtCodeView.run e UnitOfWork.showContents
        (w.m_onQtThread.foldl (fun s u => QtCodeView.run e u s)
          { w with m_onQtThread := [] }) := by
    simp [QtCodeView.drain, QtCodeView.showContents, QtCodeView.onQtThread, List.foldl_append]
  obtain ⟨k1, _, n2, k3, k4⟩ := foldl_run_passive e w.m_onQtThread
    { w with m_onQtThread := [] } h2
  rw [hdrain]
  generalize w.m_onQtThread.foldl (fun s u => QtCodeView.run e u s)
    { w with m_onQtThread := [] } = r at k1 k3
  have k1 : r.m_scrollParams = w.m_scrollParams := k1
  have k3 : r.calls = w.calls ++ n2 := k3
  refine ⟨n2 ++ ([Call.updateFiles, Call.showContents] ++
    (dispatch w.m_scrollParams ++ [Call.scrollToSnippetIfRequested])), ?_, ?_⟩
  · show (((r.emit Call.updateFiles).emit Call.showContents).performScroll).calls = _
    rw [QtCodeView.performScroll_calls]
    simp [k1, k3]
  · have hn2 : n2.filter Call.isScroll = [] :=
      List.filter_eq_nil_iff.mpr (fun c hc => by simp [k4 c hc])
    rw [List.filter_append, hn2, h1]
    unfold dispatch
    cases v.m_scrollParams.type <;> simp [Call.isScroll]

/-- C10 after `clear()` and `scrollTo(ToLine a.cpp 42)`, with the widget's `clear` still
pending: after `setMode(true)`, `focusTokenIds`, one run of the UI thread and
`showCodeSnippets` without `showContents`, the intent is still stored, and `showContents()`
scrolls to the line. -/
theorem C10_intent_survives_passive_ops_witness :
    (QtCodeView.fresh.clear.scrollTo ScrollParams.sampleToLine).m_onQtThread
      = [UnitOfWork.clear] ∧
    (∀ u ∈ (QtCodeView.fresh.clear.scrollTo ScrollParams.sampleToLine).m_onQtThread,
      u.performsScroll = false) ∧
    (∀ ev ∈ Event.samples, ev.keepsIntent = true) ∧
    (Event.samples.foldl (fun s ev => s.step External.sample ev)
      (QtCodeView.fresh.clear.scrollTo ScrollParams.sampleToLine)).m_scrollParams
      = ScrollParams.sampleToLine ∧
    (QtCodeView.drain External.sample
      (Event.samples.foldl (fun s ev => s.step External.sample ev)
        (QtCodeView.fresh.clear.scrollTo ScrollParams.sampleToLine)).showContents).calls.filter
        Call.isScroll =
      [Call.scrollToLine "a.cpp" 42, Call.scrollToSnippetIfRequested] := by
  obtain ⟨h0, ⟨n1, h1, h2⟩, ⟨n2, h3, h4⟩⟩ := C10_intent_survives_passive_ops External.sample
    (QtCodeView.fresh.clear.scrollTo ScrollParams.sampleToLine) Event.samples
    (by decide) (by decide)
  refine ⟨rfl, by decide, by decide, h0, ?_⟩
  rw [h3, h1, List.filter_append, List.filter_append, h2, h4]
  rfl

end Sourcetrail
